import Mathlib

/-!
Shallow embedding of the conversation-store service in src/main.py:
the chat endpoint (per-user conversation contexts, prompt assembly,
generation call, truncation) and the set_model endpoint.
-/

/-- A chat message, as in the pydantic model Message (role is "user" or "assistant"). -/
structure Message where
  role : String
  content : String
deriving DecidableEq, Repr

/-- A chat request, as in the pydantic model ChatRequest. -/
structure ChatRequest where
  user_id : String
  message : String
  model : Option String
  reset : Option Bool
deriving DecidableEq, Repr

/-- A chat response, as in the pydantic model ChatResponse. -/
structure ChatResponse where
  reply : String
  context : List Message
deriving DecidableEq, Repr

/-- An HTTPException as raised by the endpoints: status code and detail text. -/
structure HTTPException where
  status_code : Nat
  detail : String
deriving DecidableEq, Repr

/-- Process-wide mutable state: the current default model name and the
dict conversation_contexts mapping a user id to its stored context. -/
structure ServerState where
  current_model_name : String
  conversation_contexts : String → Option (List Message)

/-- The llm_models dict of src/main.py. -/
def llm_models : List (String × String) :=
  [("default", "gpt-3.5-turbo"), ("advanced", "gpt-4")]

/-- The state at process start: current_model_name = "default", empty dict. -/
def initialState : ServerState :=
  { current_model_name := "default", conversation_contexts := fun _ => none }

/-- Python truthiness of the Optional bool reset (None and False are falsy). -/
def pyTruthyOpt : Option Bool → Bool
  | some b => b
  | none => false

/-- Python `request.model or current_model_name`: None and "" fall back. -/
def pyOrStr : Option String → String → String
  | none, d => d
  | some s, d => if s = "" then d else s

/-- Line 57 of src/main.py: the model name used for this request. -/
def effectiveModel (st : ServerState) (req : ChatRequest) : String :=
  pyOrStr req.model st.current_model_name

/-- Lines 61-64 of src/main.py: the context this request starts from.
The entry is reset to the empty list when absent or when reset is truthy. -/
def contextBefore (st : ServerState) (req : ChatRequest) : List Message :=
  match st.conversation_contexts req.user_id with
  | none => []
  | some ctx => if pyTruthyOpt req.reset then [] else ctx

/-- Line 67 of src/main.py: the context right after the user message is appended. -/
def contextAfterUser (st : ServerState) (req : ChatRequest) : List Message :=
  contextBefore st req ++ [⟨"user", req.message⟩]

/-- The body of the prompt loop of lines 71-73 for one message. -/
def promptLine (m : Message) : String :=
  (if m.role = "user" then "User" else "Assistant") ++ ": " ++ m.content ++ "\n"

/-- Lines 70-74 of src/main.py: the prompt built from a context. -/
def buildPrompt (context : List Message) : String :=
  (context.foldl (fun acc m => acc ++ promptLine m) "") ++ "Assistant:"

/-- Lines 85-86 of src/main.py: keep only the last 20 entries when longer. -/
def truncateContext (l : List Message) : List Message :=
  if l.length > 20 then l.drop (l.length - 20) else l

/-- Write one key of the conversation_contexts dict. -/
def storeUpdate (st : ServerState) (u : String) (ctx : List Message) : ServerState :=
  { st with conversation_contexts :=
      fun k => if k = u then some ctx else st.conversation_contexts k }

/-- The stored context for a user id, the empty list when the key is absent. -/
def storedContext (st : ServerState) (u : String) : List Message :=
  (st.conversation_contexts u).getD []

/-- Lines 50-89 of src/main.py, chat_endpoint. The external generation
capability is the oracle gen : prompt → model name → reply or failure cause.
Returns the state after the request together with the HTTP outcome.
The user message is appended in place before generation, so it is stored
even when generation fails; on success the assistant reply is appended and
the context is truncated to its last 20 entries. -/
def chat_endpoint (gen : String → String → Except String String)
    (req : ChatRequest) (st : ServerState) :
    ServerState × Except HTTPException ChatResponse :=
  match gen (buildPrompt (contextAfterUser st req)) (effectiveModel st req) with
  | .error e =>
      (storeUpdate st req.user_id (contextAfterUser st req),
       .error ⟨500, "Error generating response: " ++ e⟩)
  | .ok response_text =>
      let context3 := truncateContext (contextAfterUser st req ++ [⟨"assistant", response_text⟩])
      (storeUpdate st req.user_id context3, .ok ⟨response_text, context3⟩)

/-- Lines 38-48 of src/main.py, set_model: reject a model name that is not a
key of llm_models with HTTP 400 and leave the state alone; otherwise record
the new current model name. -/
def set_model (model_name : String) (st : ServerState) :
    ServerState × Except HTTPException String :=
  if model_name ∈ llm_models.map Prod.fst then
    ({ st with current_model_name := model_name }, .ok model_name)
  else
    (st, .error ⟨400, "Model not supported."⟩)

/-- A run of successful exchanges for one user without reset: each step
carries the message sent and the reply the generation capability produces. -/
def runSuccess (u : String) (steps : List (String × String)) (st : ServerState) : ServerState :=
  match steps with
  | [] => st
  | p :: rest =>
      runSuccess u rest
        (chat_endpoint (fun _ _ => .ok p.2) ⟨u, p.1, none, some false⟩ st).1

/-- Modelled from the spec words for the prompt refinement check: the role
label is "User" for role=user and "Assistant" for role=assistant. -/
def roleLabelSpec (r : String) : String :=
  if r = "user" then "User" else if r = "assistant" then "Assistant" else ""

/-- Modelled from the spec words for the prompt refinement check: one line
per message in order, then the trailing "Assistant:" line. -/
def promptSpec (context : List Message) : String :=
  String.join (context.map fun m => roleLabelSpec m.role ++ ": " ++ m.content ++ "\n")
    ++ "Assistant:"

/-- Eleven successive exchanges with distinct messages and replies. -/
def steps11 : List (String × String) :=
  [("m1", "r1"), ("m2", "r2"), ("m3", "r3"), ("m4", "r4"), ("m5", "r5"), ("m6", "r6"),
   ("m7", "r7"), ("m8", "r8"), ("m9", "r9"), ("m10", "r10"), ("m11", "r11")]

/-- Ten successful exchanges, filling the stored context to 20 entries. -/
def c1Steps : List (String × String) :=
  [("m", "r"), ("m", "r"), ("m", "r"), ("m", "r"), ("m", "r"),
   ("m", "r"), ("m", "r"), ("m", "r"), ("m", "r"), ("m", "r")]

/-- The state after ten successful exchanges for "u1" and then one request
whose generation call fails. -/
def c1Final : ServerState :=
  (chat_endpoint (fun _ _ => .error "boom") ⟨"u1", "m", none, some false⟩
    (runSuccess "u1" c1Steps initialState)).1

/-- Reading back the key just written returns the new context. -/
lemma storedContext_storeUpdate_self (st : ServerState) (u : String) (ctx : List Message) :
    storedContext (storeUpdate st u ctx) u = ctx := by
  simp [storedContext, storeUpdate]

/-- Writing one key leaves every other key of the dict unchanged. -/
lemma conversation_storeUpdate_other (st : ServerState) (u k : String) (ctx : List Message)
    (hk : k ≠ u) :
    (storeUpdate st u ctx).conversation_contexts k = st.conversation_contexts k := by
  simp [storeUpdate, hk]

/-- Unfolding chat_endpoint when the generation call succeeds. -/
lemma chat_endpoint_ok (gen : String → String → Except String String)
    (req : ChatRequest) (st : ServerState) (reply : String)
    (h : gen (buildPrompt (contextAfterUser st req)) (effectiveModel st req) = .ok reply) :
    chat_endpoint gen req st =
      (storeUpdate st req.user_id
        (truncateContext (contextAfterUser st req ++ [⟨"assistant", reply⟩])),
       .ok ⟨reply, truncateContext (contextAfterUser st req ++ [⟨"assistant", reply⟩])⟩) := by
  unfold chat_endpoint
  rw [h]

/-- Unfolding chat_endpoint when the generation call fails. -/
lemma chat_endpoint_error (gen : String → String → Except String String)
    (req : ChatRequest) (st : ServerState) (cause : String)
    (h : gen (buildPrompt (contextAfterUser st req)) (effectiveModel st req) = .error cause) :
    chat_endpoint gen req st =
      (storeUpdate st req.user_id (contextAfterUser st req),
       .error ⟨500, "Error generating response: " ++ cause⟩) := by
  unfold chat_endpoint
  rw [h]

/-- Truncation keeps exactly min(length, 20) entries. -/
lemma length_truncateContext (l : List Message) :
    (truncateContext l).length = min l.length 20 := by
  by_cases h : l.length > 20 <;> simp [truncateContext, h] <;> omega

/-- Truncation keeps a suffix, so the last entry survives it. -/
lemma truncateContext_concat_getLast? (xs : List Message) (a : Message) :
    (truncateContext (xs ++ [a])).getLast? = some a := by
  unfold truncateContext
  split
  · rename_i h
    have hle : (xs ++ [a]).length - 20 ≤ xs.length := by
      simp only [List.length_append, List.length_cons, List.length_nil]
      omega
    rw [List.drop_append_of_le_length hle]
    exact List.getLast?_concat _
  · exact List.getLast?_concat _

/-- The context a request starts from is never longer than the stored one. -/
lemma contextBefore_length_le (st : ServerState) (req : ChatRequest) :
    (contextBefore st req).length ≤ (storedContext st req.user_id).length := by
  unfold contextBefore storedContext
  cases st.conversation_contexts req.user_id
  · simp
  · simp only [Option.getD_some]
    split <;> simp

/-- One successful exchange without reset moves the stored length to min(len + 2, 20). -/
lemma chat_success_length (u msg r : String) (st : ServerState) :
    (storedContext (chat_endpoint (fun _ _ => .ok r) ⟨u, msg, none, some false⟩ st).1 u).length
      = min ((storedContext st u).length + 2) 20 := by
  rw [chat_endpoint_ok _ _ _ r rfl]
  have hb : (contextBefore st ⟨u, msg, none, some false⟩).length
      = (storedContext st u).length := by
    unfold contextBefore storedContext pyTruthyOpt
    cases st.conversation_contexts u <;> simp
  simp [storedContext_storeUpdate_self, length_truncateContext, contextAfterUser, hb]

/-- Stored length after a run of successful exchanges, from any state within bounds. -/
lemma runSuccess_length (u : String) (steps : List (String × String)) :
    ∀ st : ServerState, (storedContext st u).length ≤ 20 →
      (storedContext (runSuccess u steps st) u).length
        = min ((storedContext st u).length + 2 * steps.length) 20 := by
  induction steps with
  | nil => intro st h; simp [runSuccess]; omega
  | cons p rest ih =>
      intro st h
      rw [runSuccess]
      rw [ih _ (by rw [chat_success_length]; omega), chat_success_length]
      simp only [List.length_cons]
      omega

/-- Folding the prompt loop from any accumulator splits off the accumulator. -/
lemma foldlPrompt_append (l : List Message) : ∀ acc : String,
    l.foldl (fun acc m => acc ++ promptLine m) acc
      = acc ++ l.foldl (fun acc m => acc ++ promptLine m) "" := by
  induction l with
  | nil => intro acc; simp
  | cons m rest ih =>
      intro acc
      simp only [List.foldl_cons]
      rw [ih (acc ++ promptLine m), ih ("" ++ promptLine m)]
      rw [String.empty_append, String.append_assoc]

/-- Folding string concatenation from any accumulator splits off the accumulator. -/
lemma strFoldl_append (l : List String) : ∀ acc : String,
    l.foldl (fun r s => r ++ s) acc = acc ++ l.foldl (fun r s => r ++ s) "" := by
  induction l with
  | nil => intro acc; simp
  | cons x rest ih =>
      intro acc
      simp only [List.foldl_cons]
      rw [ih (acc ++ x), ih ("" ++ x)]
      rw [String.empty_append, String.append_assoc]

/-- String.join splits its first element off. -/
lemma string_join_cons (s : String) (l : List String) :
    String.join (s :: l) = s ++ String.join l := by
  simp only [String.join, List.foldl_cons]
  rw [strFoldl_append, String.empty_append]

/-- The prompt loop of the code computes the line concatenation of the spec,
as long as every role is one of "user" and "assistant". -/
lemma prompt_fold_eq_join : ∀ context : List Message,
    (∀ m ∈ context, m.role = "user" ∨ m.role = "assistant") →
    context.foldl (fun acc m => acc ++ promptLine m) ""
      = String.join (context.map fun m => roleLabelSpec m.role ++ ": " ++ m.content ++ "\n")
  | [], _ => by simp [String.join]
  | m :: rest, h => by
      have hm := h m (List.mem_cons_self m rest)
      have hline : promptLine m = roleLabelSpec m.role ++ ": " ++ m.content ++ "\n" := by
        rcases hm with hu | ha
        · simp [promptLine, roleLabelSpec, hu]
        · have hne : m.role ≠ "user" := by rw [ha]; decide
          simp [promptLine, roleLabelSpec, ha, hne]
      simp only [List.foldl_cons, List.map_cons]
      rw [string_join_cons, foldlPrompt_append, String.empty_append, hline,
        prompt_fold_eq_join rest (fun m2 hm2 => h m2 (List.mem_cons_of_mem _ hm2))]

/-- Claim C1 fails as stated: starting from an empty store, ten successful
exchanges for "u1" fill the stored context to 20 entries, and one further
request whose generation call fails leaves 21 stored entries — the
completed failing request breaks the stated bound of 20. -/
theorem C1_counterexample :
    (storedContext c1Final "u1").length = 21
    ∧ ¬ (storedContext c1Final "u1").length ≤ 20 := by decide

/-- Claim C1 (amended): when the stored conversation held at most 20 entries
before the request, then after a successful request it holds at most 20
entries and ends with a role=assistant entry, while after a request that
fails at generation it holds at most 21 entries (one more than the stated
bound, since the retained user message is appended without truncation) and
ends with a role=user entry. -/
theorem C1_amended_invariant (gen : String → String → Except String String)
    (req : ChatRequest) (st : ServerState)
    (h : (storedContext st req.user_id).length ≤ 20) :
    (∀ r, (chat_endpoint gen req st).2 = .ok r →
      (storedContext (chat_endpoint gen req st).1 req.user_id).length ≤ 20
      ∧ ((storedContext (chat_endpoint gen req st).1 req.user_id).getLast?).map Message.role
          = some "assistant")
    ∧ (∀ e, (chat_endpoint gen req st).2 = .error e →
      (storedContext (chat_endpoint gen req st).1 req.user_id).length ≤ 21
      ∧ ((storedContext (chat_endpoint gen req st).1 req.user_id).getLast?).map Message.role
          = some "user") := by
  have hble : (contextBefore st req).length ≤ 20 :=
    le_trans (contextBefore_length_le st req) h
  cases hg : gen (buildPrompt (contextAfterUser st req)) (effectiveModel st req) with
  | ok reply =>
      rw [chat_endpoint_ok gen req st reply hg]
      constructor
      · intro r _
        simp only [storedContext_storeUpdate_self]
        refine ⟨by rw [length_truncateContext]; omega, ?_⟩
        rw [truncateContext_concat_getLast?]
        rfl
      · intro e he
        exact absurd he (by simp)
  | error cause =>
      rw [chat_endpoint_error gen req st cause hg]
      constructor
      · intro r hr
        exact absurd hr (by simp)
      · intro e _
        simp only [storedContext_storeUpdate_self, contextAfterUser]
        constructor
        · simp only [List.length_append, List.length_cons, List.length_nil]
          omega
        · rw [List.getLast?_concat]
          rfl

/-- Claim C1 (amended), witnessed on a successful request from the empty store. -/
theorem C1_amended_invariant_witness :
    (storedContext (chat_endpoint (fun _ _ => Except.ok "Hello")
        ⟨"u1", "Hi", none, some false⟩ initialState).1 "u1").length ≤ 20
    ∧ ((storedContext (chat_endpoint (fun _ _ => Except.ok "Hello")
        ⟨"u1", "Hi", none, some false⟩ initialState).1 "u1").getLast?).map Message.role
        = some "assistant" :=
  (C1_amended_invariant (fun _ _ => Except.ok "Hello") ⟨"u1", "Hi", none, some false⟩
      initialState (by decide)).1
    ⟨"Hello", [⟨"user", "Hi"⟩, ⟨"assistant", "Hello"⟩]⟩ rfl

/-- Claim C2: starting from the empty store, after any run of successful
exchanges for a user without reset the stored length is min(2N, 20); and in
the concrete run of the eleven exchanges of steps11 both messages of
exchange 1 are absent from the stored context, which has exactly 20 entries. -/
theorem C2_growth_and_truncation (u : String) (steps : List (String × String)) :
    (storedContext (runSuccess u steps initialState) u).length = min (2 * steps.length) 20
    ∧ Message.mk "user" "m1" ∉ storedContext (runSuccess "u9" steps11 initialState) "u9"
    ∧ Message.mk "assistant" "r1" ∉ storedContext (runSuccess "u9" steps11 initialState) "u9"
    ∧ (storedContext (runSuccess "u9" steps11 initialState) "u9").length = 20 := by
  refine ⟨?_, by decide, by decide, by decide⟩
  have h0 : (storedContext initialState u).length ≤ 20 := by
    simp [storedContext, initialState]
  rw [runSuccess_length u steps initialState h0]
  simp [storedContext, initialState]

/-- Claim C3: when the generation call fails, the request surfaces the HTTP
500 failure carrying the underlying cause, and the stored conversation for
that user is the pre-request context followed by the new user message, so it
ends with the user message and holds no assistant reply for this turn. -/
theorem C3_generation_failure (gen : String → String → Except String String)
    (req : ChatRequest) (st : ServerState) (cause : String)
    (h : gen (buildPrompt (contextAfterUser st req)) (effectiveModel st req) = .error cause) :
    (chat_endpoint gen req st).2 = .error ⟨500, "Error generating response: " ++ cause⟩
    ∧ storedContext (chat_endpoint gen req st).1 req.user_id
        = contextBefore st req ++ [⟨"user", req.message⟩]
    ∧ (storedContext (chat_endpoint gen req st).1 req.user_id).getLast?
        = some ⟨"user", req.message⟩ := by
  rw [chat_endpoint_error gen req st cause h]
  refine ⟨rfl, ?_, ?_⟩
  · rw [storedContext_storeUpdate_self]
    rfl
  · rw [storedContext_storeUpdate_self, contextAfterUser, List.getLast?_concat]

/-- Claim C3, witnessed on a failing generation call from the empty store. -/
theorem C3_generation_failure_witness :
    (chat_endpoint (fun _ _ => Except.error "boom") ⟨"u1", "Hi", none, some false⟩
        initialState).2 = .error ⟨500, "Error generating response: " ++ "boom"⟩
    ∧ storedContext (chat_endpoint (fun _ _ => Except.error "boom")
        ⟨"u1", "Hi", none, some false⟩ initialState).1 "u1"
      = contextBefore initialState ⟨"u1", "Hi", none, some false⟩ ++ [⟨"user", "Hi"⟩]
    ∧ (storedContext (chat_endpoint (fun _ _ => Except.error "boom")
        ⟨"u1", "Hi", none, some false⟩ initialState).1 "u1").getLast?
      = some ⟨"user", "Hi"⟩ :=
  C3_generation_failure (fun _ _ => Except.error "boom") ⟨"u1", "Hi", none, some false⟩
    initialState "boom" rfl

/-- Claim C4: set_model fails with the HTTP 400 unsupported-model failure
exactly when the name is outside the set of the two keys default and
advanced, and on such a failure the whole state is unchanged, so a request
without an explicit model still resolves to the prior default model. -/
theorem C4_set_model_validation (model_name : String) (st : ServerState) :
    ((set_model model_name st).2 = .error ⟨400, "Model not supported."⟩
        ↔ ¬ (model_name = "default" ∨ model_name = "advanced"))
    ∧ (¬ (model_name = "default" ∨ model_name = "advanced") →
        (set_model model_name st).1 = st
        ∧ ∀ req : ChatRequest, req.model = none →
            effectiveModel ((set_model model_name st).1) req = st.current_model_name) := by
  have hmem : model_name ∈ llm_models.map Prod.fst
      ↔ (model_name = "default" ∨ model_name = "advanced") := by
    simp [llm_models]
  by_cases hm : model_name = "default" ∨ model_name = "advanced"
  · refine ⟨?_, fun hn => absurd hm hn⟩
    simp [set_model, hmem.mpr hm, hm]
  · have hnot : model_name ∉ llm_models.map Prod.fst := fun hc => hm (hmem.mp hc)
    refine ⟨?_, fun _ => ⟨?_, ?_⟩⟩
    · simp [set_model, hnot, hm]
    · simp [set_model, hnot]
    · intro req hr
      simp [set_model, hnot, effectiveModel, hr, pyOrStr]

/-- Claim C4, witnessed at the unsupported name "bogus" on the start state. -/
theorem C4_set_model_validation_witness :
    (set_model "bogus" initialState).2 = .error ⟨400, "Model not supported."⟩
    ∧ (set_model "bogus" initialState).1 = initialState
    ∧ effectiveModel ((set_model "bogus" initialState).1)
        ⟨"u1", "Hi", none, some false⟩ = initialState.current_model_name := by
  have h := C4_set_model_validation "bogus" initialState
  have hb : ¬ ("bogus" = "default" ∨ "bogus" = "advanced") := by decide
  exact ⟨h.1.mpr hb, (h.2 hb).1, (h.2 hb).2 ⟨"u1", "Hi", none, some false⟩ rfl⟩

/-- Claim C5: for a context whose roles are user and assistant, the prompt
the code builds equals the spec's concatenation of one labelled line per
message followed by the trailing "Assistant:" line; every prompt ends in the
literal "Assistant:"; and chat_endpoint hands exactly this prompt to the
generation capability, as an echoing oracle observes. -/
theorem C5_prompt_assembly (context : List Message)
    (h : ∀ m ∈ context, m.role = "user" ∨ m.role = "assistant") :
    buildPrompt context = promptSpec context
    ∧ (∃ s, buildPrompt context = s ++ "Assistant:")
    ∧ ∀ (st : ServerState) (req : ChatRequest),
        ∃ ctx, (chat_endpoint (fun p _ => Except.ok p) req st).2
          = .ok ⟨buildPrompt (contextAfterUser st req), ctx⟩ := by
  refine ⟨?_, ⟨context.foldl (fun acc m => acc ++ promptLine m) "", rfl⟩, ?_⟩
  · unfold buildPrompt promptSpec
    rw [prompt_fold_eq_join context h]
  · intro st req
    rw [chat_endpoint_ok (fun p _ => Except.ok p) req st
      (buildPrompt (contextAfterUser st req)) rfl]
    exact ⟨truncateContext (contextAfterUser st req
      ++ [⟨"assistant", buildPrompt (contextAfterUser st req)⟩]), rfl⟩

/-- Claim C5, witnessed on a two-message context. -/
theorem C5_prompt_assembly_witness :
    buildPrompt [⟨"user", "Hi"⟩, ⟨"assistant", "Hello"⟩]
      = promptSpec [⟨"user", "Hi"⟩, ⟨"assistant", "Hello"⟩]
    ∧ (∃ s, buildPrompt [⟨"user", "Hi"⟩, ⟨"assistant", "Hello"⟩] = s ++ "Assistant:") :=
  ⟨(C5_prompt_assembly [⟨"user", "Hi"⟩, ⟨"assistant", "Hello"⟩] (by decide)).1,
   (C5_prompt_assembly [⟨"user", "Hi"⟩, ⟨"assistant", "Hello"⟩] (by decide)).2.1⟩

/-- Claim C6: with reset truthy, or when the user id has no stored entry, the
request starts from the empty context, so right after the user message is
appended the context is exactly the one new user message and has length 1. -/
theorem C6_reset_semantics (st : ServerState) (req : ChatRequest)
    (h : req.reset = some true ∨ st.conversation_contexts req.user_id = none) :
    contextAfterUser st req = [⟨"user", req.message⟩]
    ∧ (contextAfterUser st req).length = 1 := by
  have hb : contextBefore st req = [] := by
    unfold contextBefore
    rcases h with h | h
    · cases st.conversation_contexts req.user_id <;> simp [pyTruthyOpt, h]
    · rw [h]
  rw [contextAfterUser, hb]
  exact ⟨rfl, rfl⟩

/-- Claim C6, witnessed on a reset request against the empty store. -/
theorem C6_reset_semantics_witness :
    contextAfterUser initialState ⟨"u1", "Hi", none, some true⟩ = [⟨"user", "Hi"⟩]
    ∧ (contextAfterUser initialState ⟨"u1", "Hi", none, some true⟩).length = 1 :=
  C6_reset_semantics initialState ⟨"u1", "Hi", none, some true⟩ (Or.inl rfl)

/-- Claim C7: when the generation call returns a reply, the request appends
exactly the one user message and then the one assistant message, stores the
possibly truncated sequence under the user id, and answers with the reply
together with exactly that stored sequence. -/
theorem C7_success_append (gen : String → String → Except String String)
    (req : ChatRequest) (st : ServerState) (reply : String)
    (h : gen (buildPrompt (contextAfterUser st req)) (effectiveModel st req) = .ok reply) :
    (chat_endpoint gen req st).2
      = .ok ⟨reply, truncateContext (contextBefore st req
          ++ [⟨"user", req.message⟩, ⟨"assistant", reply⟩])⟩
    ∧ storedContext (chat_endpoint gen req st).1 req.user_id
      = truncateContext (contextBefore st req
          ++ [⟨"user", req.message⟩, ⟨"assistant", reply⟩]) := by
  have hs : contextAfterUser st req ++ [(⟨"assistant", reply⟩ : Message)]
      = contextBefore st req ++ [⟨"user", req.message⟩, ⟨"assistant", reply⟩] := by
    simp [contextAfterUser]
  rw [chat_endpoint_ok gen req st reply h]
  exact ⟨by rw [hs], by rw [storedContext_storeUpdate_self, hs]⟩

/-- Claim C7, witnessed on the spec scenario: message "Hi" on the empty
store with reply "Hello" stores and returns the two-message context. -/
theorem C7_success_append_witness :
    (chat_endpoint (fun _ _ => Except.ok "Hello") ⟨"u1", "Hi", none, some false⟩
        initialState).2 = .ok ⟨"Hello", [⟨"user", "Hi"⟩, ⟨"assistant", "Hello"⟩]⟩
    ∧ storedContext (chat_endpoint (fun _ _ => Except.ok "Hello")
        ⟨"u1", "Hi", none, some false⟩ initialState).1 "u1"
      = [⟨"user", "Hi"⟩, ⟨"assistant", "Hello"⟩] :=
  C7_success_append (fun _ _ => Except.ok "Hello") ⟨"u1", "Hi", none, some false⟩
    initialState "Hello" rfl

/-- Claim C8: a request without an explicit model resolves to the process
default, the generation call receives exactly that name, and a successful
set_model of a supported name changes the default so later requests without
an explicit model resolve to the new name. -/
theorem C8_default_model_selection (st : ServerState) (req : ChatRequest) (m : String)
    (hreq : req.model = none) (hm : m = "default" ∨ m = "advanced") :
    effectiveModel st req = st.current_model_name
    ∧ (∃ ctx, (chat_endpoint (fun _ mdl => Except.ok mdl) req st).2
        = .ok ⟨st.current_model_name, ctx⟩)
    ∧ (set_model m st).1.current_model_name = m
    ∧ effectiveModel ((set_model m st).1) req = m := by
  have he : effectiveModel st req = st.current_model_name := by
    simp [effectiveModel, hreq, pyOrStr]
  have hmem : m ∈ llm_models.map Prod.fst := by
    rcases hm with h | h <;> simp [llm_models, h]
  have hset : (set_model m st).1 = { st with current_model_name := m } := by
    simp [set_model, hmem]
  refine ⟨he, ⟨truncateContext (contextAfterUser st req
      ++ [⟨"assistant", st.current_model_name⟩]), ?_⟩, by rw [hset], ?_⟩
  · rw [chat_endpoint_ok _ req st st.current_model_name (by rw [he])]
  · rw [hset]
    simp [effectiveModel, hreq, pyOrStr]

/-- Claim C8, witnessed by switching the start state to "advanced". -/
theorem C8_default_model_selection_witness :
    effectiveModel initialState ⟨"u1", "Hi", none, some false⟩
      = initialState.current_model_name
    ∧ (∃ ctx, (chat_endpoint (fun _ mdl => Except.ok mdl)
        ⟨"u1", "Hi", none, some false⟩ initialState).2
        = .ok ⟨initialState.current_model_name, ctx⟩)
    ∧ (set_model "advanced" initialState).1.current_model_name = "advanced"
    ∧ effectiveModel ((set_model "advanced" initialState).1)
        ⟨"u1", "Hi", none, some false⟩ = "advanced" :=
  C8_default_model_selection initialState ⟨"u1", "Hi", none, some false⟩ "advanced"
    rfl (Or.inr rfl)

/-- Claim C9: the chat endpoint never rejects a model name — every failure it
can answer is the HTTP 500 generation failure, never the HTTP 400
unsupported-model failure; a nonempty explicit model string is passed to the
generation call as-is, and the empty string falls back to the process
default. -/
theorem C9_no_model_validation (gen : String → String → Except String String)
    (st : ServerState) (req : ChatRequest) (m : String)
    (hm : req.model = some m) :
    (∀ e, (chat_endpoint gen req st).2 = .error e →
        e.status_code = 500 ∧ ∃ cause, e.detail = "Error generating response: " ++ cause)
    ∧ (m ≠ "" → effectiveModel st req = m)
    ∧ (m = "" → effectiveModel st req = st.current_model_name) := by
  refine ⟨?_, ?_, ?_⟩
  · intro e he
    cases hg : gen (buildPrompt (contextAfterUser st req)) (effectiveModel st req) with
    | ok r =>
        rw [chat_endpoint_ok gen req st r hg] at he
        exact absurd he (by simp)
    | error c =>
        rw [chat_endpoint_error gen req st c hg] at he
        simp only [Except.error.injEq] at he
        rw [← he]
        exact ⟨rfl, ⟨c, rfl⟩⟩
  · intro hne
    simp [effectiveModel, hm, pyOrStr, hne]
  · intro h0
    simp [effectiveModel, hm, pyOrStr, h0]

/-- Claim C9, witnessed with an arbitrary model string on a failing call. -/
theorem C9_no_model_validation_witness :
    ((500 : Nat) = 500
      ∧ ∃ cause, "Error generating response: " ++ "boom"
          = "Error generating response: " ++ cause)
    ∧ effectiveModel initialState ⟨"u1", "Hi", some "mystery-model", some false⟩
        = "mystery-model" := by
  have h := C9_no_model_validation (fun _ _ => Except.error "boom") initialState
    ⟨"u1", "Hi", some "mystery-model", some false⟩ "mystery-model" rfl
  exact ⟨h.1 ⟨500, "Error generating response: " ++ "boom"⟩ rfl, h.2.1 (by decide)⟩

/-- Claim C10: a chat request, whether it succeeds or fails, leaves the
stored conversation of every other user id exactly as it was. -/
theorem C10_frame (gen : String → String → Except String String)
    (req : ChatRequest) (st : ServerState) (k : String) (hk : k ≠ req.user_id) :
    (chat_endpoint gen req st).1.conversation_contexts k = st.conversation_contexts k := by
  cases hg : gen (buildPrompt (contextAfterUser st req)) (effectiveModel st req) with
  | ok r =>
      rw [chat_endpoint_ok gen req st r hg]
      exact conversation_storeUpdate_other st req.user_id k _ hk
  | error c =>
      rw [chat_endpoint_error gen req st c hg]
      exact conversation_storeUpdate_other st req.user_id k _ hk

/-- Claim C10, witnessed for user "u2" across a request of user "u1". -/
theorem C10_frame_witness :
    (chat_endpoint (fun _ _ => Except.ok "Hello") ⟨"u1", "Hi", none, some false⟩
        initialState).1.conversation_contexts "u2"
      = initialState.conversation_contexts "u2" :=
  C10_frame (fun _ _ => Except.ok "Hello") ⟨"u1", "Hi", none, some false⟩
    initialState "u2" (by decide)
